import Mathlib

/-!
Verification of the in-memory book catalog HTTP server (src/main.go).

Shallow embedding: the shared map guarded by the RWMutex is modelled as an
association list `Store`; every handler is a pure function from a request and
the current store to a response and the next store.  The mutex serializes all
map accesses, so each handler invocation acts atomically on the store; a set
of concurrent requests is modelled as a sequential execution in an arbitrary
order.  JSON decoding of a request body is represented by its outcome
(`Except String Book`), matching the branch structure of the Go handlers;
JSON encoding of responses is implemented concretely (Go field order, no
spaces), with a nil/non-nil slice distinction kept for the `encoding/json`
null-vs-empty-array behaviour.
-/

namespace RestServer

/-- Book mirrors the Go struct: ID and Title, serialized as "id" and "title". -/
structure Book where
  ID : String
  Title : String
deriving DecidableEq, Repr

/-- Store models the Go map from book ID to Book (`books`), as an association
list with distinct keys.  Map iteration order in Go is unspecified; the list
order stands in for one such order. -/
abbrev Store := List (String × Book)

/-- getBook models a Go map read `books[id]`: the value at the key, if present. -/
def getBook : Store → String → Option Book
  | [], _ => none
  | (k, v) :: rest, id => if k = id then some v else getBook rest id

/-- putBook models a Go map write `books[id] = b`: replace the binding at the
key if present, otherwise add one. -/
def putBook : Store → String → Book → Store
  | [], id, b => [(id, b)]
  | (k, v) :: rest, id, b =>
      if k = id then (id, b) :: rest else (k, v) :: putBook rest id b

/-- deleteBook models the Go builtin `delete(books, id)`: remove the binding at
the key; a no-op when the key is absent. -/
def deleteBook : Store → String → Store
  | [], _ => []
  | (k, v) :: rest, id =>
      if k = id then deleteBook rest id else (k, v) :: deleteBook rest id

/-- listBooks models the GET /books snapshot loop: `make([]Book, 0, len(books))`
followed by appending every value of the map. -/
def listBooks (s : Store) : List Book := s.map (fun p => p.2)

/-- initializeBooks mirrors the five seed assignments performed at startup. -/
def initializeBooks : Store :=
  putBook (putBook (putBook (putBook (putBook []
    "1" ⟨"1", "1984"⟩)
    "2" ⟨"2", "Brave New World"⟩)
    "3" ⟨"3", "To Kill a Mockingbird"⟩)
    "4" ⟨"4", "The Great Gatsby"⟩)
    "5" ⟨"5", "Moby Dick"⟩

/-- secretKey is the compile-time constant the X-API-Key header is compared to. -/
def secretKey : String := "secret-key"

/-- headerGet models Go `r.Header.Get`: the header value, or "" when absent. -/
def headerGet (h : Option String) : String := h.getD ""

/-- Request carries the parts of an `http.Request` the handlers read: the
method, the URL path, the X-API-Key header (none when absent), and the outcome
of JSON-decoding the request body into a Book (`json.Decoder.Decode`), with
the decoder's error text on failure. -/
structure Request where
  method : String
  path : String
  apiKey : Option String
  body : Except String Book

/-- Response records the status code and the exact body bytes written. -/
structure Response where
  status : Nat
  body : String
deriving DecidableEq, Repr

/-- Handler is the shape of an `http.HandlerFunc` acting on the shared store. -/
abbrev Handler := Request → Store → Response × Store

/-- httpError models Go `http.Error(w, msg, code)`, which writes the message
followed by a newline. -/
def httpError (msg : String) : String := msg ++ "\n"

/-- notFoundBody is the body written by Go `http.NotFound`. -/
def notFoundBody : String := "404 page not found\n"

/-- escapeJSONChar escapes a character for a JSON string literal the way
`encoding/json` does for the characters occurring here (quote and backslash). -/
def escapeJSONChar (c : Char) : String :=
  if c = '"' then "\\\"" else if c = '\\' then "\\\\" else String.singleton c

/-- quoteJSON renders a Go string as a JSON string literal. -/
def quoteJSON (s : String) : String :=
  "\"" ++ String.join (s.data.map escapeJSONChar) ++ "\""

/-- marshalBook renders a Book the way `encoding/json` marshals the Go struct:
fields in declaration order, keys from the struct tags, no spaces. -/
def marshalBook (b : Book) : String :=
  "\x7b" ++ quoteJSON "id" ++ ":" ++ quoteJSON b.ID ++ ","
        ++ quoteJSON "title" ++ ":" ++ quoteJSON b.Title ++ "\x7d"

/-- marshalBookSlice renders a Go `[]Book` as JSON: a nil slice marshals to
null, a non-nil slice (even empty) to a JSON array. -/
def marshalBookSlice : Option (List Book) → String
  | none => "null"
  | some l => "[" ++ String.intercalate "," (l.map marshalBook) ++ "]"

/-- encodeWrite models `json.Encoder.Encode`, which writes the JSON text
followed by a newline. -/
def encodeWrite (json : String) : String := json ++ "\n"

/-- authenticate mirrors the Go middleware: if the X-API-Key header value does
not equal the secret, respond 401 Unauthorized and stop; otherwise invoke the
wrapped handler. -/
def authenticate (next : Handler) : Handler := fun r s =>
  let apiKey := headerGet r.apiKey
  if apiKey ≠ secretKey then
    (⟨401, httpError "Unauthorized"⟩, s)
  else
    next r s

/-- handleBooks mirrors the Go /books handler: GET lists all books (the slice
is created non-nil with make, so an empty store still encodes as an array);
POST decodes a Book, stores it under its own ID, and responds 201; any other
method responds 405. -/
def handleBooks : Handler := fun r s =>
  if r.method = "GET" then
    (⟨200, encodeWrite (marshalBookSlice (some (listBooks s)))⟩, s)
  else if r.method = "POST" then
    match r.body with
    | .error e => (⟨400, httpError e⟩, s)
    | .ok book => (⟨201, ""⟩, putBook s book.ID book)
  else
    (⟨405, ""⟩, s)

/-- bookPathId mirrors `r.URL.Path[len("/book/"):]`: everything after the
six-character prefix, taken verbatim. -/
def bookPathId (p : String) : String := p.drop 6

/-- handleBook mirrors the Go /book/ handler: the ID is the path suffix after
the prefix; GET looks it up (404 when absent, otherwise the JSON of the
record); PUT decodes a Book, stores it under the path ID, and echoes the
decoded record as JSON (implicit 200); DELETE removes the key and responds
204; any other method responds 405. -/
def handleBook : Handler := fun r s =>
  let id := bookPathId r.path
  if r.method = "GET" then
    match getBook s id with
    | none => (⟨404, notFoundBody⟩, s)
    | some book => (⟨200, encodeWrite (marshalBook book)⟩, s)
  else if r.method = "PUT" then
    match r.body with
    | .error e => (⟨400, httpError e⟩, s)
    | .ok book => (⟨200, encodeWrite (marshalBook book)⟩, putBook s id book)
  else if r.method = "DELETE" then
    (⟨204, ""⟩, deleteBook s id)
  else
    (⟨405, ""⟩, s)

/-- postAll runs a POST /books request for each record in the list, in list
order, threading the store: the serialized execution of a batch of concurrent
POSTs (the write mutex makes each map update atomic, so any concurrent
schedule corresponds to some order of the list). -/
def postAll (records : List Book) (key : Option String) (s : Store) : Store :=
  records.foldl
    (fun st b => (authenticate handleBooks ⟨"POST", "/books", key, .ok b⟩ st).2) s

/-- A map write makes the written value visible at the written key. -/
theorem getBook_putBook_self (s : Store) (id : String) (b : Book) :
    getBook (putBook s id b) id = some b := by
  induction s with
  | nil => simp [putBook, getBook]
  | cons hd tl ih =>
      obtain ⟨k, v⟩ := hd
      by_cases h : k = id
      · simp [putBook, getBook, h]
      · simp [putBook, getBook, h, ih]

/-- A map write leaves every other key unchanged. -/
theorem getBook_putBook_ne (s : Store) (id k : String) (b : Book) (h : k ≠ id) :
    getBook (putBook s id b) k = getBook s k := by
  induction s with
  | nil => simp [putBook, getBook, Ne.symm h]
  | cons hd tl ih =>
      obtain ⟨k', v⟩ := hd
      by_cases h' : k' = id
      · subst h'
        simp [putBook, getBook, Ne.symm h]
      · simp [putBook, getBook, h', ih]

/-- A map delete removes the key. -/
theorem getBook_deleteBook_self (s : Store) (id : String) :
    getBook (deleteBook s id) id = none := by
  induction s with
  | nil => simp [deleteBook, getBook]
  | cons hd tl ih =>
      obtain ⟨k, v⟩ := hd
      by_cases h : k = id
      · simp [deleteBook, h, ih]
      · simp [deleteBook, getBook, h, ih]

/-- A map delete leaves every other key unchanged. -/
theorem getBook_deleteBook_ne (s : Store) (id k : String) (h : k ≠ id) :
    getBook (deleteBook s id) k = getBook s k := by
  induction s with
  | nil => simp [deleteBook]
  | cons hd tl ih =>
      obtain ⟨k', v⟩ := hd
      by_cases h' : k' = id
      · subst h'
        simp [deleteBook, getBook, Ne.symm h, ih]
      · simp [deleteBook, getBook, h', ih]

/-- Deleting a key twice is the same as deleting it once. -/
theorem deleteBook_deleteBook (s : Store) (id : String) :
    deleteBook (deleteBook s id) id = deleteBook s id := by
  induction s with
  | nil => simp [deleteBook]
  | cons hd tl ih =>
      obtain ⟨k, v⟩ := hd
      by_cases h : k = id
      · simp [deleteBook, h, ih]
      · simp [deleteBook, h, ih]

/-- The item handler's identifier extraction recovers the suffix verbatim. -/
theorem bookPathId_append (id : String) : bookPathId ("/book/" ++ id) = id := by
  rw [bookPathId, String.drop_eq]
  show String.mk (("/book/".data ++ id.data).drop 6) = id
  rw [show (6 : Nat) = "/book/".data.length from rfl, List.drop_left]

/-- A POST /books request with a well-formed body stores the decoded record
under its own ID and responds 201 with an empty body. -/
theorem post_ok_step (book : Book) (key : Option String) (s : Store)
    (hkey : headerGet key = secretKey) :
    authenticate handleBooks ⟨"POST", "/books", key, .ok book⟩ s =
      (⟨201, ""⟩, putBook s book.ID book) := by
  simp [authenticate, hkey, handleBooks]

/-- An authorized GET /book/ request at a stored key returns 200 with the JSON
of the stored record and leaves the store unchanged. -/
theorem get_ok_step (id : String) (key : Option String) (s : Store) (b : Book)
    (hkey : headerGet key = secretKey) (hb : getBook s id = some b) :
    authenticate handleBook ⟨"GET", "/book/" ++ id, key, .error "EOF"⟩ s =
      (⟨200, encodeWrite (marshalBook b)⟩, s) := by
  simp [authenticate, hkey, handleBook, bookPathId_append, hb]

/-- C1: for every wrapped handler (hence both registered routes), every method
and every request whose X-API-Key header is missing or differs from the fixed
secret, the middleware responds 401 with body "Unauthorized" (as written by
http.Error) and returns the store unchanged; the result does not depend on the
wrapped handler, which is therefore never invoked. -/
theorem claim1_auth_rejects (next : Handler) (r : Request) (s : Store)
    (h : headerGet r.apiKey ≠ secretKey) :
    authenticate next r s = (⟨401, httpError "Unauthorized"⟩, s) := by
  simp [authenticate, h]

/-- C2: an authorized PUT /book/ request whose body decodes to a record stores
exactly the decoded record under the path identifier, unconditionally, and
responds 200 with the JSON of the now-stored record; the stored value keeps
its own embedded ID (which may differ from the path id), and a subsequent GET
of the same path returns the stored body. -/
theorem claim2_put_upserts (id : String) (book : Book) (key : Option String)
    (s : Store) (hkey : headerGet key = secretKey) :
    authenticate handleBook ⟨"PUT", "/book/" ++ id, key, .ok book⟩ s =
      (⟨200, encodeWrite (marshalBook book)⟩, putBook s id book) ∧
    getBook (putBook s id book) id = some book ∧
    (authenticate handleBook ⟨"GET", "/book/" ++ id, key, .error "EOF"⟩
        (putBook s id book)).1 = ⟨200, encodeWrite (marshalBook book)⟩ := by
  refine ⟨?_, getBook_putBook_self s id book, ?_⟩
  · simp [authenticate, hkey, handleBook, bookPathId_append]
  · rw [get_ok_step id key (putBook s id book) book hkey
      (getBook_putBook_self s id book)]

/-- C3: an authorized POST /books request whose body decodes to a record
stores it under the record's own embedded ID — overwriting any existing
binding, with no duplicate check — and responds 201 with an empty body; a
subsequent GET /book/ of that ID returns the posted record with status 200. -/
theorem claim3_post_creates (book : Book) (key : Option String) (s : Store)
    (hkey : headerGet key = secretKey) :
    authenticate handleBooks ⟨"POST", "/books", key, .ok book⟩ s =
      (⟨201, ""⟩, putBook s book.ID book) ∧
    authenticate handleBook ⟨"GET", "/book/" ++ book.ID, key, .error "EOF"⟩
        (putBook s book.ID book) =
      (⟨200, encodeWrite (marshalBook book)⟩, putBook s book.ID book) := by
  refine ⟨post_ok_step book key s hkey, ?_⟩
  exact get_ok_step book.ID key (putBook s book.ID book) book hkey
    (getBook_putBook_self s book.ID book)

/-- C4: an authorized POST /books request whose body fails JSON decoding
responds 400 with the decode error text as the body (as written by http.Error)
and leaves the store exactly unchanged. -/
theorem claim4_post_bad_json (e : String) (key : Option String) (s : Store)
    (hkey : headerGet key = secretKey) :
    authenticate handleBooks ⟨"POST", "/books", key, .error e⟩ s =
      (⟨400, httpError e⟩, s) := by
  simp [authenticate, hkey, handleBooks]

/-- C5: an authorized DELETE /book/ request removes the binding at the path
identifier (a no-op when absent) and always responds 204 with an empty body;
afterwards a GET of the same path returns 404, and a second DELETE leaves the
store unchanged and still responds 204. -/
theorem claim5_delete_idempotent (id : String) (key : Option String) (s : Store)
    (hkey : headerGet key = secretKey) :
    authenticate handleBook ⟨"DELETE", "/book/" ++ id, key, .error "EOF"⟩ s =
      (⟨204, ""⟩, deleteBook s id) ∧
    getBook (deleteBook s id) id = none ∧
    (authenticate handleBook ⟨"GET", "/book/" ++ id, key, .error "EOF"⟩
        (deleteBook s id)).1 = ⟨404, notFoundBody⟩ ∧
    authenticate handleBook ⟨"DELETE", "/book/" ++ id, key, .error "EOF"⟩
        (deleteBook s id) = (⟨204, ""⟩, deleteBook s id) := by
  refine ⟨?_, getBook_deleteBook_self s id, ?_, ?_⟩
  · simp [authenticate, hkey, handleBook, bookPathId_append]
  · simp [authenticate, hkey, handleBook, bookPathId_append,
      getBook_deleteBook_self s id]
  · simp [authenticate, hkey, handleBook, bookPathId_append,
      deleteBook_deleteBook s id]

/-- C6: the item identifier is everything after the "/book/" prefix taken
verbatim (the empty string when the path is exactly the prefix, looked up like
any other key); an authorized GET /book/ request leaves the store unchanged,
responds 404 exactly when no record is stored under the identifier, and
otherwise responds 200 with the JSON of the stored record. -/
theorem claim6_get_book (id : String) (key : Option String) (s : Store)
    (hkey : headerGet key = secretKey) :
    bookPathId ("/book/" ++ id) = id ∧
    bookPathId "/book/" = "" ∧
    (authenticate handleBook ⟨"GET", "/book/" ++ id, key, .error "EOF"⟩ s).2 = s ∧
    ((authenticate handleBook ⟨"GET", "/book/" ++ id, key, .error "EOF"⟩ s).1.status
        = 404 ↔ getBook s id = none) ∧
    (∀ b, getBook s id = some b →
      (authenticate handleBook ⟨"GET", "/book/" ++ id, key, .error "EOF"⟩ s).1 =
        ⟨200, encodeWrite (marshalBook b)⟩) := by
  cases hgb : getBook s id with
  | none =>
      refine ⟨bookPathId_append id, rfl, ?_, ?_, ?_⟩
      · simp [authenticate, hkey, handleBook, bookPathId_append, hgb]
      · simp [authenticate, hkey, handleBook, bookPathId_append, hgb]
      · intro b hb
        exact absurd hb (by simp)
  | some b =>
      refine ⟨bookPathId_append id, rfl, ?_, ?_, ?_⟩
      · simp [authenticate, hkey, handleBook, bookPathId_append, hgb]
      · simp [authenticate, hkey, handleBook, bookPathId_append, hgb]
      · intro b' hb'
        obtain rfl : b = b' := by injection hb'
        rw [get_ok_step id key s b hkey hgb]

/-- C7: immediately after startup the store holds exactly the five seeded
records with IDs "1" through "5" and the seeded titles, and an authorized
GET /books on that store responds 200 with the JSON array of exactly those
five records (in the snapshot order, one of the unspecified map orders). -/
theorem claim7_seeded :
    initializeBooks =
      [("1", ⟨"1", "1984"⟩), ("2", ⟨"2", "Brave New World"⟩),
       ("3", ⟨"3", "To Kill a Mockingbird"⟩), ("4", ⟨"4", "The Great Gatsby"⟩),
       ("5", ⟨"5", "Moby Dick"⟩)] ∧
    (listBooks initializeBooks).Perm
      [⟨"1", "1984"⟩, ⟨"2", "Brave New World"⟩, ⟨"3", "To Kill a Mockingbird"⟩,
       ⟨"4", "The Great Gatsby"⟩, ⟨"5", "Moby Dick"⟩] ∧
    authenticate handleBooks ⟨"GET", "/books", some secretKey, .error "EOF"⟩
        initializeBooks =
      (⟨200, encodeWrite (marshalBookSlice (some
        [⟨"1", "1984"⟩, ⟨"2", "Brave New World"⟩, ⟨"3", "To Kill a Mockingbird"⟩,
         ⟨"4", "The Great Gatsby"⟩, ⟨"5", "Moby Dick"⟩]))⟩, initializeBooks) := by
  refine ⟨by decide, by decide, by rfl⟩

/-- C8: an authorized GET /books always responds 200 with the store left
unchanged and a body that is the JSON array of exactly the current snapshot of
the store's records; the snapshot slice is created non-nil, so an empty store
yields the array "[]", while only a nil slice would marshal to "null". -/
theorem claim8_list_books (key : Option String) (body : Except String Book)
    (s : Store) (hkey : headerGet key = secretKey) :
    authenticate handleBooks ⟨"GET", "/books", key, body⟩ s =
      (⟨200, encodeWrite (marshalBookSlice (some (listBooks s)))⟩, s) ∧
    (s = [] → (authenticate handleBooks ⟨"GET", "/books", key, body⟩ s).1.body =
      encodeWrite "[]") ∧
    marshalBookSlice none = "null" := by
  refine ⟨?_, ?_, rfl⟩
  · simp [authenticate, hkey, handleBooks]
  · intro hs
    subst hs
    simp [authenticate, hkey, handleBooks]
    rfl

/-- C9: each mutating operation touches at most one key: POST /books with a
record whose ID is k, PUT /book/ at a path id, and DELETE /book/ at a path id
each leave every record stored under any other key exactly unchanged. -/
theorem claim9_frame (id k : String) (book : Book) (key : Option String)
    (s : Store) (hkey : headerGet key = secretKey) :
    (k ≠ book.ID →
      getBook (authenticate handleBooks ⟨"POST", "/books", key, .ok book⟩ s).2 k =
        getBook s k) ∧
    (k ≠ id →
      getBook (authenticate handleBook
        ⟨"PUT", "/book/" ++ id, key, .ok book⟩ s).2 k = getBook s k) ∧
    (k ≠ id →
      getBook (authenticate handleBook
        ⟨"DELETE", "/book/" ++ id, key, .error "EOF"⟩ s).2 k = getBook s k) := by
  refine ⟨?_, ?_, ?_⟩
  · intro h
    rw [post_ok_step book key s hkey]
    exact getBook_putBook_ne s book.ID k book h
  · intro h
    have hput : (authenticate handleBook
        ⟨"PUT", "/book/" ++ id, key, .ok book⟩ s).2 = putBook s id book := by
      simp [authenticate, hkey, handleBook, bookPathId_append]
    rw [hput]
    exact getBook_putBook_ne s id k book h
  · intro h
    have hdel : (authenticate handleBook
        ⟨"DELETE", "/book/" ++ id, key, .error "EOF"⟩ s).2 = deleteBook s id := by
      simp [authenticate, hkey, handleBook, bookPathId_append]
    rw [hdel]
    exact getBook_deleteBook_ne s id k h

/-- Running a batch of POSTs whose record IDs all differ from a key leaves
that key's binding unchanged. -/
theorem getBook_postAll_of_ne (records : List Book) (key : Option String)
    (s : Store) (k : String) (hkey : headerGet key = secretKey)
    (hk : ∀ b ∈ records, k ≠ b.ID) :
    getBook (postAll records key s) k = getBook s k := by
  induction records generalizing s with
  | nil => rfl
  | cons b rest ih =>
      have hstep : postAll (b :: rest) key s =
          postAll rest key (putBook s b.ID b) := by
        simp [postAll, post_ok_step b key s hkey]
      rw [hstep,
        ih (putBook s b.ID b) (fun c hc => hk c (List.mem_cons_of_mem b hc)),
        getBook_putBook_ne s b.ID k b (hk b (List.mem_cons_self b rest))]

/-- After a serialized batch of POSTs with pairwise distinct record IDs, every
posted record is stored under its ID. -/
theorem postAll_retrievable (records : List Book) (key : Option String)
    (s : Store) (hkey : headerGet key = secretKey)
    (hnodup : (records.map Book.ID).Nodup) :
    ∀ b ∈ records, getBook (postAll records key s) b.ID = some b := by
  induction records generalizing s with
  | nil =>
      intro b hb
      cases hb
  | cons b rest ih =>
      intro c hc
      have hstep : postAll (b :: rest) key s =
          postAll rest key (putBook s b.ID b) := by
        simp [postAll, post_ok_step b key s hkey]
      have hnd := List.nodup_cons.mp hnodup
      rw [hstep]
      rcases List.mem_cons.mp hc with rfl | hc'
      · rw [getBook_postAll_of_ne rest key (putBook s c.ID c) c.ID hkey
          (fun d hd he => hnd.1 (he ▸ List.mem_map_of_mem Book.ID hd))]
        exact getBook_putBook_self s c.ID c
      · exact ih (putBook s b.ID b) hnd.2 c hc'

/-- C10: a set of concurrent POST /books requests is serialized by the
exclusive write lock, so it executes as the records in some order; every such
POST responds 201 regardless of the store it meets, and after the whole batch
(in any order, since the record list is arbitrary) every record with a
pairwise-distinct ID is retrievable from the store under its ID — no update is
lost. -/
theorem claim10_concurrent_posts (records : List Book) (key : Option String)
    (s : Store) (hkey : headerGet key = secretKey)
    (hnodup : (records.map Book.ID).Nodup) :
    (∀ (st : Store) (b : Book),
      (authenticate handleBooks ⟨"POST", "/books", key, .ok b⟩ st).1 = ⟨201, ""⟩) ∧
    (∀ b ∈ records, getBook (postAll records key s) b.ID = some b) := by
  constructor
  · intro st b
    rw [post_ok_step b key st hkey]
  · exact postAll_retrievable records key s hkey hnodup

/-- Witness for C1: a request with no X-API-Key header is rejected with 401
and the seeded store is untouched. -/
theorem claim1_auth_rejects_witness :
    headerGet (none : Option String) ≠ secretKey ∧
    authenticate handleBooks ⟨"POST", "/books", none, .ok ⟨"9", "X"⟩⟩
        initializeBooks = (⟨401, httpError "Unauthorized"⟩, initializeBooks) :=
  ⟨by decide,
   claim1_auth_rejects handleBooks ⟨"POST", "/books", none, .ok ⟨"9", "X"⟩⟩
     initializeBooks (by decide)⟩

/-- Witness for C2: PUT /book/99 on the seeded store (id absent) creates the
record and the follow-up GET returns it. -/
theorem claim2_put_upserts_witness :
    headerGet (some secretKey) = secretKey ∧
    (authenticate handleBook
        ⟨"PUT", "/book/" ++ "99", some secretKey, .ok ⟨"99", "Dune"⟩⟩
        initializeBooks =
      (⟨200, encodeWrite (marshalBook ⟨"99", "Dune"⟩)⟩,
       putBook initializeBooks "99" ⟨"99", "Dune"⟩) ∧
    getBook (putBook initializeBooks "99" ⟨"99", "Dune"⟩) "99" =
      some ⟨"99", "Dune"⟩ ∧
    (authenticate handleBook ⟨"GET", "/book/" ++ "99", some secretKey, .error "EOF"⟩
        (putBook initializeBooks "99" ⟨"99", "Dune"⟩)).1 =
      ⟨200, encodeWrite (marshalBook ⟨"99", "Dune"⟩)⟩) :=
  ⟨by decide,
   claim2_put_upserts "99" ⟨"99", "Dune"⟩ (some secretKey) initializeBooks
     (by decide)⟩

/-- Witness for C3: POST of the book with id "6" on the seeded store, then
GET /book/6 returns it with 200. -/
theorem claim3_post_creates_witness :
    headerGet (some secretKey) = secretKey ∧
    (authenticate handleBooks ⟨"POST", "/books", some secretKey, .ok ⟨"6", "Dune"⟩⟩
        initializeBooks = (⟨201, ""⟩, putBook initializeBooks "6" ⟨"6", "Dune"⟩) ∧
    authenticate handleBook
        ⟨"GET", "/book/" ++ Book.ID ⟨"6", "Dune"⟩, some secretKey, .error "EOF"⟩
        (putBook initializeBooks "6" ⟨"6", "Dune"⟩) =
      (⟨200, encodeWrite (marshalBook ⟨"6", "Dune"⟩)⟩,
       putBook initializeBooks "6" ⟨"6", "Dune"⟩)) :=
  ⟨by decide,
   claim3_post_creates ⟨"6", "Dune"⟩ (some secretKey) initializeBooks (by decide)⟩

/-- Witness for C4: a POST whose body fails to decode yields 400 with the
error text and leaves the seeded store unchanged. -/
theorem claim4_post_bad_json_witness :
    headerGet (some secretKey) = secretKey ∧
    authenticate handleBooks
        ⟨"POST", "/books", some secretKey, .error "unexpected EOF"⟩
        initializeBooks = (⟨400, httpError "unexpected EOF"⟩, initializeBooks) :=
  ⟨by decide,
   claim4_post_bad_json "unexpected EOF" (some secretKey) initializeBooks
     (by decide)⟩

/-- Witness for C5: DELETE /book/1 on the seeded store, then GET /book/1 is
404 and a second DELETE still returns 204 with the store unchanged. -/
theorem claim5_delete_idempotent_witness :
    headerGet (some secretKey) = secretKey ∧
    (authenticate handleBook ⟨"DELETE", "/book/" ++ "1", some secretKey, .error "EOF"⟩
        initializeBooks = (⟨204, ""⟩, deleteBook initializeBooks "1") ∧
    getBook (deleteBook initializeBooks "1") "1" = none ∧
    (authenticate handleBook ⟨"GET", "/book/" ++ "1", some secretKey, .error "EOF"⟩
        (deleteBook initializeBooks "1")).1 = ⟨404, notFoundBody⟩ ∧
    authenticate handleBook ⟨"DELETE", "/book/" ++ "1", some secretKey, .error "EOF"⟩
        (deleteBook initializeBooks "1") =
      (⟨204, ""⟩, deleteBook initializeBooks "1")) :=
  ⟨by decide,
   claim5_delete_idempotent "1" (some secretKey) initializeBooks (by decide)⟩

/-- Witness for C6: GET /book/1 on the seeded store is not 404 (the key is
present) and returns 200 with the seeded record's JSON. -/
theorem claim6_get_book_witness :
    headerGet (some secretKey) = secretKey ∧
    ((authenticate handleBook ⟨"GET", "/book/" ++ "1", some secretKey, .error "EOF"⟩
        initializeBooks).1.status = 404 ↔ getBook initializeBooks "1" = none) ∧
    (authenticate handleBook ⟨"GET", "/book/" ++ "1", some secretKey, .error "EOF"⟩
        initializeBooks).1 = ⟨200, encodeWrite (marshalBook ⟨"1", "1984"⟩)⟩ :=
  ⟨by decide,
   (claim6_get_book "1" (some secretKey) initializeBooks (by decide)).2.2.2.1,
   (claim6_get_book "1" (some secretKey) initializeBooks (by decide)).2.2.2.2
     ⟨"1", "1984"⟩ (by decide)⟩

/-- Witness for C8: GET /books on the empty store responds 200 with body
consisting of the empty JSON array and a newline. -/
theorem claim8_list_books_witness :
    headerGet (some secretKey) = secretKey ∧
    (authenticate handleBooks ⟨"GET", "/books", some secretKey, .error "EOF"⟩
        ([] : Store) =
      (⟨200, encodeWrite (marshalBookSlice (some (listBooks ([] : Store))))⟩,
       ([] : Store)) ∧
    (authenticate handleBooks ⟨"GET", "/books", some secretKey, .error "EOF"⟩
        ([] : Store)).1.body = encodeWrite "[]") :=
  ⟨by decide,
   (claim8_list_books (some secretKey) (.error "EOF") ([] : Store) (by decide)).1,
   (claim8_list_books (some secretKey) (.error "EOF") ([] : Store) (by decide)).2.1
     rfl⟩

/-- Witness for C9: POST of a record with id "1", PUT at path id "1" and
DELETE at path id "1" all leave the record under key "2" of the seeded store
unchanged. -/
theorem claim9_frame_witness :
    headerGet (some secretKey) = secretKey ∧
    getBook (authenticate handleBooks
        ⟨"POST", "/books", some secretKey, .ok ⟨"1", "X"⟩⟩ initializeBooks).2 "2" =
      getBook initializeBooks "2" ∧
    getBook (authenticate handleBook
        ⟨"PUT", "/book/" ++ "1", some secretKey, .ok ⟨"1", "X"⟩⟩
        initializeBooks).2 "2" = getBook initializeBooks "2" ∧
    getBook (authenticate handleBook
        ⟨"DELETE", "/book/" ++ "1", some secretKey, .error "EOF"⟩
        initializeBooks).2 "2" = getBook initializeBooks "2" :=
  ⟨by decide,
   (claim9_frame "1" "2" ⟨"1", "X"⟩ (some secretKey) initializeBooks
     (by decide)).1 (by decide),
   (claim9_frame "1" "2" ⟨"1", "X"⟩ (some secretKey) initializeBooks
     (by decide)).2.1 (by decide),
   (claim9_frame "1" "2" ⟨"1", "X"⟩ (some secretKey) initializeBooks
     (by decide)).2.2 (by decide)⟩

/-- Witness for C10: two POSTs with distinct ids "10" and "11" run in a batch
on the empty store; each responds 201 and both records are retrievable. -/
theorem claim10_concurrent_posts_witness :
    headerGet (some secretKey) = secretKey ∧
    (([⟨"10", "A"⟩, ⟨"11", "B"⟩] : List Book).map Book.ID).Nodup ∧
    (authenticate handleBooks
        ⟨"POST", "/books", some secretKey, .ok ⟨"10", "A"⟩⟩ ([] : Store)).1 =
      ⟨201, ""⟩ ∧
    getBook (postAll [⟨"10", "A"⟩, ⟨"11", "B"⟩] (some secretKey) ([] : Store))
        (Book.ID ⟨"10", "A"⟩) = some ⟨"10", "A"⟩ ∧
    getBook (postAll [⟨"10", "A"⟩, ⟨"11", "B"⟩] (some secretKey) ([] : Store))
        (Book.ID ⟨"11", "B"⟩) = some ⟨"11", "B"⟩ :=
  ⟨by decide, by decide,
   (claim10_concurrent_posts [⟨"10", "A"⟩, ⟨"11", "B"⟩] (some secretKey)
     ([] : Store) (by decide) (by decide)).1 ([] : Store) ⟨"10", "A"⟩,
   (claim10_concurrent_posts [⟨"10", "A"⟩, ⟨"11", "B"⟩] (some secretKey)
     ([] : Store) (by decide) (by decide)).2 ⟨"10", "A"⟩ (by decide),
   (claim10_concurrent_posts [⟨"10", "A"⟩, ⟨"11", "B"⟩] (some secretKey)
     ([] : Store) (by decide) (by decide)).2 ⟨"11", "B"⟩ (by decide)⟩

end RestServer
